import Mathlib

/-!
Shallow embedding of the DWARF section-reader module
(`plugins/dwarf/shared/src/lib.rs`) of the binaryninja-api repository.

The binary-analysis host is external: a loaded image is modelled as a
record of the query functions the module actually calls (section lookup
by name, symbol and data-variable tables, raw byte reads, address size,
a scoped boolean setting, and an optional untransformed raw backing
view).  Machine bytes are `Nat`s, addresses and lengths are `Nat`s.

Rust panics (slice indexing out of range, `Option::unwrap` on `None`,
`chunks(0)`, debug-mode `usize` underflow) are modelled by an outer
`Option`: `none` is a panic.  Every underlying byte-read call the module
issues against the image (`read_vec` / `read_buffer`) is additionally
recorded, in order, in a read log `List (Nat × Nat)` of
`(address, length)` pairs, so that frame properties about which reads
are issued can be stated.
-/

namespace Dwarf

/-- Byte order of the image, `gimli::RunTimeEndian`. -/
inductive RunTimeEndian
| little
| big
deriving DecidableEq

/-- A named section of the image: the byte range `[start, start+len)`.
Models the `start()` and `len()` accessors of the host `Section` object. -/
structure Section where
  start : Nat
  len : Nat
deriving DecidableEq

/-- A symbol of the image: its full name and address
(`symbol.full_name()`, `symbol.address()`). -/
structure BnSymbol where
  fullName : String
  address : Nat
deriving DecidableEq

/-- A data variable of the image.  `width` is `data_var.ty.contents.width()`;
`elementWidth` is the width of `data_type.element_type()`'s contents, `none`
when the declared type has no element type (the module's `.unwrap()` on it
would panic). -/
structure DataVariable where
  address : Nat
  width : Nat
  elementWidth : Option Nat
deriving DecidableEq

/-- The untransformed raw backing view of an image.  The module only ever
calls `section_by_name` on it. -/
structure RawView where
  sectionByName : String → Option Section

/-- A loaded binary image, modelled as exactly the query interface the
DWARF module consumes:
* `sectionByName` — `view.section_by_name(name)`;
* `rawView` — `view.raw_view()`;
* `symbols` — `view.symbols()` as a list;
* `dataVariables` — `view.data_variables()` as a list;
* `readVec a l` — `view.read_vec(a, l)`: up to `l` bytes (short reads
  may truncate, so the result is an arbitrary byte list);
* `readBuffer a l` — `view.read_buffer(a, l)`: `none` is the `Err` case;
* `addressSize` — `view.address_size()`;
* `settingEnableDebuginfod` — the boolean value the host's
  `Settings::get_bool_with_opts("network.enableDebuginfod", opts)` returns
  for query options scoped to this view. -/
structure BinaryView where
  sectionByName : String → Option Section
  rawView : Option RawView
  symbols : List BnSymbol
  dataVariables : List DataVariable
  readVec : Nat → Nat → List Nat
  readBuffer : Nat → Nat → Option (List Nat)
  addressSize : Nat
  settingEnableDebuginfod : Bool

/-- Rust source: `is_non_dwo_dwarf`. -/
def is_non_dwo_dwarf (view : BinaryView) : Bool :=
  (view.sectionByName ".debug_info").isSome || (view.sectionByName "__debug_info").isSome

/-- Rust source: `is_dwo_dwarf`. -/
def is_dwo_dwarf (view : BinaryView) : Bool :=
  (view.sectionByName ".debug_info.dwo").isSome

/-- Rust source: `is_raw_non_dwo_dwarf`.  Note that the second disjunct
queries `view`, not `raw_view`, exactly as the source does. -/
def is_raw_non_dwo_dwarf (view : BinaryView) : Bool :=
  match view.rawView with
  | some raw_view =>
      (raw_view.sectionByName ".debug_info").isSome
        || (view.sectionByName "__debug_info").isSome
  | none => false

/-- Rust source: `is_raw_dwo_dwarf`. -/
def is_raw_dwo_dwarf (view : BinaryView) : Bool :=
  match view.rawView with
  | some raw_view => (raw_view.sectionByName ".debug_info.dwo").isSome
  | none => false

/-- Rust source: `has_build_id_section`. -/
def has_build_id_section (view : BinaryView) : Bool :=
  match view.rawView with
  | some raw_view => (raw_view.sectionByName ".note.gnu.build-id").isSome
  | none => false

/-- Rust source: `can_use_debuginfod`.  The settings query is scoped to the
view (`QueryOptions::new_with_view(view)`), which the model reflects by the
setting being a per-view field. -/
def can_use_debuginfod (view : BinaryView) : Bool :=
  has_build_id_section view && view.settingEnableDebuginfod

/-- Rust source: `is_valid`. -/
def is_valid (view : BinaryView) : Bool :=
  is_non_dwo_dwarf view || is_raw_non_dwo_dwarf view
    || is_dwo_dwarf view || is_raw_dwo_dwarf view

/-- A DWARF section identifier, `gimli::SectionId` viewed through the two
accessors the module uses: `name()` (the canonical section name, a non-empty
string literal in gimli) and `dwo_name()` (the optional split-file name). -/
structure SectionId where
  name : String
  dwoName : Option String
deriving DecidableEq

/-- The error type of the module (Rust `Error`); `GimliError` is never
produced by `create_section_reader`, so only the two constructors that can
occur are modelled.  `IoError` is the `?`-conversion of a zstd
`std::io::Error`. -/
inductive Error
| UnknownCompressionMethod (tag : Nat)
| IoError
deriving DecidableEq

/-- An endianness-tagged immutable byte buffer, `gimli::EndianRcSlice`. -/
structure EndianRcSlice where
  data : List Nat
  endian : RunTimeEndian
deriving DecidableEq

/-- Rust slice indexing `&l[a..b]`: `none` models the bounds-check panic
(`a > b` or `b > l.len()`). -/
def slice? (l : List Nat) (a b : Nat) : Option (List Nat) :=
  if a ≤ b ∧ b ≤ l.length then some ((l.drop a).take (b - a)) else none

/-- Little-endian byte-list-to-integer conversion. -/
def leWord (l : List Nat) : Nat :=
  l.foldr (fun b acc => b + 256 * acc) 0

/-- Combine a byte list into an integer under the given byte order. -/
def readWord (endian : RunTimeEndian) (l : List Nat) : Nat :=
  match endian with
  | .little => leWord l
  | .big => leWord l.reverse

/-- `gimli::Endianity::read_u32`: reads the first 4 bytes of the slice in
the given byte order; `none` models the panic when fewer than 4 bytes are
available. -/
def read_u32 (endian : RunTimeEndian) (l : List Nat) : Option Nat :=
  if 4 ≤ l.length then some (readWord endian (l.take 4)) else none

/-- Rust `data.chunks(w)`: the list of successive `w`-byte chunks of `l`,
the last possibly shorter.  (The caller guards `w = 0`, where Rust's
`chunks` panics; this closed form returns `[]` there, unused.) -/
def chunksOf (w : Nat) (l : List Nat) : List (List Nat) :=
  (List.range ((l.length + w - 1) / w)).map (fun i => (l.drop (i * w)).take w)

/-- Rust `Iterator::find` over the chunk list with a predicate that may
itself panic: outer `none` is a panic inside the predicate, `some none`
means no chunk matched, `some (some c)` is the first matching chunk. -/
def findFirst (p : List Nat → Option Bool) : List (List Nat) → Option (Option (List Nat))
| [] => some none
| c :: cs =>
  match p c with
  | none => none
  | some true => some (some c)
  | some false => findFirst p cs

/-- The predicate of the module's header-search loop: does this raw
section-header record's address field (`[16..20]` as u32 for 4-byte address
size, `[24..32]` as u64 otherwise) equal the resolved section's start?
`none` models the slice-indexing panic on a record shorter than the indexed
range. -/
def sectionHeaderMatches (address_size : Nat) (endian : RunTimeEndian)
    (sectionStart : Nat) (section_header : List Nat) : Option Bool :=
  if address_size = 4 then
    (slice? section_header 16 20).map (fun s => readWord endian s == sectionStart)
  else
    (slice? section_header 24 32).map (fun s => readWord endian s == sectionStart)

/-- The flags field of a raw section-header record (`[8..12]` as u32 for
4-byte address size, `[8..16]` as u64 otherwise); `none` models the
slice-indexing panic. -/
def sectionHeaderFlags (address_size : Nat) (endian : RunTimeEndian)
    (section_header : List Nat) : Option Nat :=
  if address_size = 4 then
    (slice? section_header 8 12).map (readWord endian)
  else
    (slice? section_header 8 16).map (readWord endian)

/-- Rust `usize` subtraction `a - b`; `none` models the debug-mode
underflow panic. -/
def usizeSub (a b : Nat) : Option Nat :=
  if b ≤ a then some (a - b) else none

/-- The section name `create_section_reader` resolves first: the DWO name
when `dwo_file` is set and the identifier defines one, else the canonical
name (the `dwo_name().is_some()` / `.unwrap()` pair of the source). -/
def sectionNameOf (section_id : SectionId) (dwo_file : Bool) : String :=
  if dwo_file && section_id.dwoName.isSome then
    section_id.dwoName.getD section_id.name
  else
    section_id.name

/-- The compression-detection and decompression block of
`create_section_reader` (source lines 106–168), given the section `s`
resolved under its exact (or DWO) name.  Result:
* `none` — a Rust panic (`element_type().unwrap()` on a non-array type,
  `chunks(0)`, slice indexing into a short header record, short
  `read_u32` input, or `usize` underflow of `len - header_size`);
* `some (some r, reads)` — the block early-returned `r` after issuing the
  byte reads `reads`;
* `some (none, reads)` — the block fell through (side table absent, no
  matching header, compression bit clear, or `read_buffer` failed) after
  issuing `reads`.
`zlib` models `DataBuffer::zlib_decompress().get_data()` and `zstd` models
`zstd::decode_all` (with `none` the `Err` case). -/
def sectionReaderCompressed (zlib : List Nat → List Nat)
    (zstd : List Nat → Option (List Nat)) (view : BinaryView)
    (endian : RunTimeEndian) (s : Section) :
    Option (Option (Except Error EndianRcSlice) × List (Nat × Nat)) :=
  match view.symbols.find? (fun symbol => symbol.fullName == "__elf_section_headers") with
  | none => some (none, [])
  | some symbol =>
    match view.dataVariables.find? (fun var => var.address == symbol.address) with
    | none => some (none, [])
    | some data_var =>
      let data := view.readVec data_var.address data_var.width
      let reads0 : List (Nat × Nat) := [(data_var.address, data_var.width)]
      match data_var.elementWidth with
      | none => none
      | some elementWidth =>
        if elementWidth = 0 then none
        else
          match findFirst (sectionHeaderMatches view.addressSize endian s.start)
              (chunksOf elementWidth data) with
          | none => none
          | some none => some (none, reads0)
          | some (some current_section_header) =>
            match sectionHeaderFlags view.addressSize endian current_section_header with
            | none => none
            | some section_flags =>
              if section_flags &&& 2048 ≠ 0 then
                let compressed_header_size := view.addressSize * 3
                let offset := s.start + compressed_header_size
                match usizeSub s.len compressed_header_size with
                | none => none
                | some len =>
                  let ch_type_vec := view.readVec s.start 4
                  let reads1 := reads0 ++ [(s.start, 4)]
                  match read_u32 endian ch_type_vec with
                  | none => none
                  | some ch_type =>
                    let reads2 := reads1 ++ [(offset, len)]
                    match view.readBuffer offset len with
                    | some buffer =>
                      if ch_type = 1 then
                        some (some (Except.ok ⟨zlib buffer, endian⟩), reads2)
                      else if ch_type = 2 then
                        match zstd buffer with
                        | some d => some (some (Except.ok ⟨d, endian⟩), reads2)
                        | none => some (some (Except.error Error.IoError), reads2)
                      else
                        some (some (Except.error (Error.UnknownCompressionMethod ch_type)), reads2)
                    | none => some (none, reads2)
              else
                some (none, reads0)

/-- Rust source: `create_section_reader`.  The first component of the
result pairs is the value the Rust function returns; the second is the
ordered log of `(address, length)` byte-read calls it issued against the
image; outer `none` is a Rust panic (including the `&section_name[1..]`
panic on an empty name). -/
def create_section_reader (zlib : List Nat → List Nat)
    (zstd : List Nat → Option (List Nat)) (section_id : SectionId)
    (view : BinaryView) (endian : RunTimeEndian) (dwo_file : Bool) :
    Option (Except Error EndianRcSlice × List (Nat × Nat)) :=
  let section_name := sectionNameOf section_id dwo_file
  match view.sectionByName section_name with
  | some s =>
    match sectionReaderCompressed zlib zstd view endian s with
    | none => none
    | some (some r, reads) => some (r, reads)
    | some (none, reads) =>
      let offset := s.start
      let len := s.len
      if len = 0 then
        some (Except.ok ⟨[], endian⟩, reads)
      else
        some (Except.ok ⟨view.readVec offset len, endian⟩, reads ++ [(offset, len)])
  | none =>
    if section_name.length = 0 then none
    else
      match view.sectionByName ("__" ++ section_name.drop 1) with
      | some s =>
        some (Except.ok ⟨view.readVec s.start s.len, endian⟩, [(s.start, s.len)])
      | none => some (Except.ok ⟨[], endian⟩, [])

deriving instance DecidableEq for Except

/-! ## Concrete images used as witnesses and counterexamples -/

/-- A raw backing view with no sections at all. -/
def emptyRaw : RawView :=
  { sectionByName := fun _ => none }

/-- An image whose raw backing view has no sections, while the transformed
view has a `__debug_info` section. -/
def c1View : BinaryView :=
  { sectionByName := fun n => if n = "__debug_info" then some ⟨0, 0⟩ else none
    rawView := some emptyRaw
    symbols := []
    dataVariables := []
    readVec := fun _ _ => []
    readBuffer := fun _ _ => none
    addressSize := 8
    settingEnableDebuginfod := false }

/-- An image with a raw backing view containing a build-id note section. -/
def c7Raw : RawView :=
  { sectionByName := fun n => if n = ".note.gnu.build-id" then some ⟨0, 32⟩ else none }

/-- An image eligible for debuginfod: build-id note present in the raw view
and the scoped network setting enabled. -/
def c7View : BinaryView :=
  { sectionByName := fun _ => none
    rawView := some c7Raw
    symbols := []
    dataVariables := []
    readVec := fun _ _ => []
    readBuffer := fun _ _ => none
    addressSize := 8
    settingEnableDebuginfod := true }

/-- An image with no sections, no symbols and no raw view. -/
def emptyView : BinaryView :=
  { sectionByName := fun _ => none
    rawView := none
    symbols := []
    dataVariables := []
    readVec := fun _ _ => []
    readBuffer := fun _ _ => none
    addressSize := 8
    settingEnableDebuginfod := false }

/-- The identity-like stand-ins for the external decompressors used by
concrete witnesses: `zlibW` prepends `7`, `zstdW` prepends `8`, so their
output is recognisable in results. -/
def zlibW : List Nat → List Nat := fun l => 7 :: l

/-- Concrete zstd stand-in for witnesses; see `zlibW`. -/
def zstdW : List Nat → Option (List Nat) := fun l => some (8 :: l)

/-- The `.debug_info` section identifier (no DWO alternate), as a concrete
`SectionId` for witnesses. -/
def idW : SectionId := ⟨".debug_info", none⟩

/-- A raw 20-byte ELF section-header record (4-byte address size layout):
flags field at `[8..12]` is `0x800` little-endian (compression bit set),
address field at `[16..20]` is `0`. -/
def hdrBytesW : List Nat :=
  [0, 0, 0, 0, 0, 0, 0, 0, 0, 8, 0, 0, 0, 0, 0, 0, 0, 0, 0, 0]

/-- A 4-byte-address-size image with a compressed `.debug_info` section at
`[0, 16)`, a published section-header side table at address `100` (one
20-byte record, `hdrBytesW`), compression-method tag `tagByte` in the
section's first 4 bytes, and a 4-byte compressed payload `[9,9,9,9]`. -/
def viewW (tagByte : Nat) : BinaryView :=
  { sectionByName := fun n => if n = ".debug_info" then some ⟨0, 16⟩ else none
    rawView := none
    symbols := [⟨"__elf_section_headers", 100⟩]
    dataVariables := [⟨100, 20, some 20⟩]
    readVec := fun a l =>
      if a = 100 then hdrBytesW
      else if a = 0 ∧ l = 4 then [tagByte, 0, 0, 0]
      else []
    readBuffer := fun a l => if a = 12 ∧ l = 4 then some [9, 9, 9, 9] else none
    addressSize := 4
    settingEnableDebuginfod := false }

/-- Like `viewW 1` but every `read_buffer` call fails. -/
def viewW8 : BinaryView :=
  { viewW 1 with readBuffer := fun _ _ => none }

/-- An image with an uncompressed 3-byte `.debug_info` section at `[0, 3)`
holding bytes `[1,2,3]`, and no section-header side table. -/
def c5View : BinaryView :=
  { sectionByName := fun n => if n = ".debug_info" then some ⟨0, 3⟩ else none
    rawView := none
    symbols := []
    dataVariables := []
    readVec := fun a l => if a = 0 ∧ l = 3 then [1, 2, 3] else []
    readBuffer := fun _ _ => none
    addressSize := 8
    settingEnableDebuginfod := false }

/-- An image whose only section is a zero-length `__debug_info` — found via
the Mach-O `__`-prefix fallback only. -/
def c6View : BinaryView :=
  { sectionByName := fun n => if n = "__debug_info" then some ⟨5, 0⟩ else none
    rawView := none
    symbols := []
    dataVariables := []
    readVec := fun _ _ => []
    readBuffer := fun _ _ => none
    addressSize := 8
    settingEnableDebuginfod := false }

/-- An image with a zero-length `.debug_info` section under its exact name
and no side table. -/
def c6ViewA : BinaryView :=
  { sectionByName := fun n => if n = ".debug_info" then some ⟨5, 0⟩ else none
    rawView := none
    symbols := []
    dataVariables := []
    readVec := fun _ _ => []
    readBuffer := fun _ _ => none
    addressSize := 8
    settingEnableDebuginfod := false }

/-- An image where `.debug_info` exists only under the `__` prefix with
content `[4,5]`, while a section-header side table is published (so that
compression detection would be possible if it were ever consulted). -/
def c9View : BinaryView :=
  { sectionByName := fun n => if n = "__debug_info" then some ⟨0, 2⟩ else none
    rawView := none
    symbols := [⟨"__elf_section_headers", 100⟩]
    dataVariables := [⟨100, 20, some 20⟩]
    readVec := fun a l =>
      if a = 100 then hdrBytesW
      else if a = 0 ∧ l = 2 then [4, 5]
      else []
    readBuffer := fun _ _ => none
    addressSize := 4
    settingEnableDebuginfod := false }

/-- A split-file witness identifier: canonical name `.debug_info`, DWO name
`.debug_info.dwo`. -/
def idDwoW : SectionId := ⟨".debug_info", some ".debug_info.dwo"⟩

/-- `c5View` with the section map additionally answering every other name —
in particular the `__`-prefixed fallback name — with a decoy section. -/
def c4View2 : BinaryView :=
  { c5View with
    sectionByName := fun n => if n = ".debug_info" then some ⟨0, 3⟩ else some ⟨77, 1⟩ }

/-! ## Theorems -/

/-- C1.  The claim states that `is_raw_non_dwo_dwarf` consults only the raw
backing view.  The code does not: its second disjunct queries the
transformed view for `__debug_info` (source line 51 uses `view`, not
`raw_view`, unlike the sibling `is_raw_dwo_dwarf`).  On `c1View` — whose
raw backing view contains no `.debug_info` and no `__debug_info` section,
while the transformed view has `__debug_info` — the function returns
`true`, though the claim requires `false`. -/
theorem c1_raw_dwarf_checks_transformed_view :
    is_raw_non_dwo_dwarf c1View = true
      ∧ c1View.rawView = some emptyRaw
      ∧ emptyRaw.sectionByName ".debug_info" = none
      ∧ emptyRaw.sectionByName "__debug_info" = none := by
  refine ⟨by decide, rfl, rfl, rfl⟩

/-- C7.  `can_use_debuginfod` is true iff the raw backing view exists and
contains a `.note.gnu.build-id` section, and the image-scoped
`network.enableDebuginfod` setting is enabled. -/
theorem c7_can_use_debuginfod_iff (view : BinaryView) :
    can_use_debuginfod view = true ↔
      ((∃ raw, view.rawView = some raw
          ∧ (raw.sectionByName ".note.gnu.build-id").isSome = true)
        ∧ view.settingEnableDebuginfod = true) := by
  cases h : view.rawView with
  | none => simp [can_use_debuginfod, has_build_id_section, h]
  | some raw => simp [can_use_debuginfod, has_build_id_section, h]

/-- C7 witness: on `c7View` the theorem's right-hand side holds, and the
function indeed returns `true`. -/
theorem c7_can_use_debuginfod_iff_witness : can_use_debuginfod c7View = true :=
  (c7_can_use_debuginfod_iff c7View).mpr ⟨⟨c7Raw, rfl, rfl⟩, rfl⟩

/-- C3.  When the resolved section name is absent from the image under both
the exact name and the `__`-prefixed Mach-O variant, `create_section_reader`
returns `Ok` with a zero-length buffer tagged with the given byte order,
issuing no reads — never an error. -/
theorem c3_missing_section_is_empty (zlib : List Nat → List Nat)
    (zstd : List Nat → Option (List Nat)) (section_id : SectionId)
    (view : BinaryView) (endian : RunTimeEndian) (dwo_file : Bool)
    (hname : (sectionNameOf section_id dwo_file).length ≠ 0)
    (h1 : view.sectionByName (sectionNameOf section_id dwo_file) = none)
    (h2 : view.sectionByName ("__" ++ (sectionNameOf section_id dwo_file).drop 1) = none) :
    create_section_reader zlib zstd section_id view endian dwo_file =
      some (Except.ok ⟨[], endian⟩, []) := by
  unfold create_section_reader
  simp [h1, h2, hname]

/-- C3 witness: the empty image at the `.debug_info` identifier. -/
theorem c3_missing_section_is_empty_witness :
    create_section_reader zlibW zstdW idW emptyView RunTimeEndian.little false =
      some (Except.ok ⟨[], RunTimeEndian.little⟩, []) :=
  c3_missing_section_is_empty zlibW zstdW idW emptyView RunTimeEndian.little false
    (by decide) rfl rfl

/-- C2.  For a section whose matched header record has the compression bit
`0x800` set and whose payload read succeeds, the reader dispatches on the
4-byte method tag read from the section's first 4 bytes in the image's byte
order: tag `1` yields the zlib-inflation of the payload, tag `2` yields the
zstd-decoding, and any other tag `x` fails with
`UnknownCompressionMethod x` and produces no output besides the error. -/
theorem c2_compression_dispatch (zlib : List Nat → List Nat)
    (zstd : List Nat → Option (List Nat)) (section_id : SectionId)
    (view : BinaryView) (endian : RunTimeEndian) (dwo_file : Bool)
    (s : Section) (symbol : BnSymbol) (data_var : DataVariable)
    (elementWidth : Nat) (hdr : List Nat) (flags len tag : Nat)
    (buffer : List Nat)
    (hs : view.sectionByName (sectionNameOf section_id dwo_file) = some s)
    (hsym : view.symbols.find?
        (fun sy => sy.fullName == "__elf_section_headers") = some symbol)
    (hvar : view.dataVariables.find?
        (fun v => v.address == symbol.address) = some data_var)
    (hew : data_var.elementWidth = some elementWidth)
    (hew0 : elementWidth ≠ 0)
    (hfind : findFirst (sectionHeaderMatches view.addressSize endian s.start)
        (chunksOf elementWidth (view.readVec data_var.address data_var.width))
        = some (some hdr))
    (hflags : sectionHeaderFlags view.addressSize endian hdr = some flags)
    (hbit : flags &&& 2048 ≠ 0)
    (hlen : usizeSub s.len (view.addressSize * 3) = some len)
    (htag : read_u32 endian (view.readVec s.start 4) = some tag)
    (hbuf : view.readBuffer (s.start + view.addressSize * 3) len = some buffer) :
    (tag = 1 → create_section_reader zlib zstd section_id view endian dwo_file =
        some (Except.ok ⟨zlib buffer, endian⟩,
          [(data_var.address, data_var.width), (s.start, 4),
            (s.start + view.addressSize * 3, len)])) ∧
    (tag = 2 → create_section_reader zlib zstd section_id view endian dwo_file =
        some ((zstd buffer).elim (Except.error Error.IoError)
            (fun d => Except.ok ⟨d, endian⟩),
          [(data_var.address, data_var.width), (s.start, 4),
            (s.start + view.addressSize * 3, len)])) ∧
    (tag ≠ 1 → tag ≠ 2 →
      create_section_reader zlib zstd section_id view endian dwo_file =
        some (Except.error (Error.UnknownCompressionMethod tag),
          [(data_var.address, data_var.width), (s.start, 4),
            (s.start + view.addressSize * 3, len)])) := by
  refine ⟨fun h1 => ?_, fun h2 => ?_, fun h1 h2 => ?_⟩
  · subst h1
    simp [create_section_reader, sectionReaderCompressed, hs, hsym, hvar, hew,
      hfind, hflags, hlen, htag, hbuf, hew0, hbit]
  · subst h2
    cases hz : zstd buffer with
    | some d =>
      simp [create_section_reader, sectionReaderCompressed, hs, hsym, hvar, hew,
        hfind, hflags, hlen, htag, hbuf, hew0, hbit, hz]
    | none =>
      simp [create_section_reader, sectionReaderCompressed, hs, hsym, hvar, hew,
        hfind, hflags, hlen, htag, hbuf, hew0, hbit, hz]
  · simp [create_section_reader, sectionReaderCompressed, hs, hsym, hvar, hew,
      hfind, hflags, hlen, htag, hbuf, hew0, hbit, h1, h2]

/-- C2 witness: the compressed image `viewW t` with method tags 1, 2 and 3.
Tag 1 yields the zlib stand-in output, tag 2 the zstd stand-in output, tag
3 the `UnknownCompressionMethod 3` error. -/
theorem c2_compression_dispatch_witness :
    (create_section_reader zlibW zstdW idW (viewW 1) RunTimeEndian.little false =
        some (Except.ok ⟨[7, 9, 9, 9, 9], RunTimeEndian.little⟩,
          [(100, 20), (0, 4), (12, 4)])) ∧
    (create_section_reader zlibW zstdW idW (viewW 2) RunTimeEndian.little false =
        some (Except.ok ⟨[8, 9, 9, 9, 9], RunTimeEndian.little⟩,
          [(100, 20), (0, 4), (12, 4)])) ∧
    (create_section_reader zlibW zstdW idW (viewW 3) RunTimeEndian.little false =
        some (Except.error (Error.UnknownCompressionMethod 3),
          [(100, 20), (0, 4), (12, 4)])) := by
  refine ⟨?_, ?_, ?_⟩
  · exact (c2_compression_dispatch zlibW zstdW idW (viewW 1) RunTimeEndian.little false
      ⟨0, 16⟩ ⟨"__elf_section_headers", 100⟩ ⟨100, 20, some 20⟩ 20 hdrBytesW 2048 4 1
      [9, 9, 9, 9] (by decide) (by decide) (by decide) (by decide) (by decide)
      (by decide) (by decide) (by decide) (by decide) (by decide) (by decide)).1 rfl
  · exact (c2_compression_dispatch zlibW zstdW idW (viewW 2) RunTimeEndian.little false
      ⟨0, 16⟩ ⟨"__elf_section_headers", 100⟩ ⟨100, 20, some 20⟩ 20 hdrBytesW 2048 4 2
      [9, 9, 9, 9] (by decide) (by decide) (by decide) (by decide) (by decide)
      (by decide) (by decide) (by decide) (by decide) (by decide) (by decide)).2.1 rfl
  · exact (c2_compression_dispatch zlibW zstdW idW (viewW 3) RunTimeEndian.little false
      ⟨0, 16⟩ ⟨"__elf_section_headers", 100⟩ ⟨100, 20, some 20⟩ 20 hdrBytesW 2048 4 3
      [9, 9, 9, 9] (by decide) (by decide) (by decide) (by decide) (by decide)
      (by decide) (by decide) (by decide) (by decide) (by decide)
      (by decide)).2.2 (by decide) (by decide)

/-- C8.  When the compression bit is detected as set but the buffered read
of the compressed payload fails, `create_section_reader` does not error: it
falls through and returns the verbatim raw section bytes, compression
header included. -/
theorem c8_failed_payload_read_falls_through (zlib : List Nat → List Nat)
    (zstd : List Nat → Option (List Nat)) (section_id : SectionId)
    (view : BinaryView) (endian : RunTimeEndian) (dwo_file : Bool)
    (s : Section) (symbol : BnSymbol) (data_var : DataVariable)
    (elementWidth : Nat) (hdr : List Nat) (flags len tag : Nat)
    (hs : view.sectionByName (sectionNameOf section_id dwo_file) = some s)
    (hsym : view.symbols.find?
        (fun sy => sy.fullName == "__elf_section_headers") = some symbol)
    (hvar : view.dataVariables.find?
        (fun v => v.address == symbol.address) = some data_var)
    (hew : data_var.elementWidth = some elementWidth)
    (hew0 : elementWidth ≠ 0)
    (hfind : findFirst (sectionHeaderMatches view.addressSize endian s.start)
        (chunksOf elementWidth (view.readVec data_var.address data_var.width))
        = some (some hdr))
    (hflags : sectionHeaderFlags view.addressSize endian hdr = some flags)
    (hbit : flags &&& 2048 ≠ 0)
    (hlen : usizeSub s.len (view.addressSize * 3) = some len)
    (htag : read_u32 endian (view.readVec s.start 4) = some tag)
    (hbuf : view.readBuffer (s.start + view.addressSize * 3) len = none)
    (hlen0 : s.len ≠ 0) :
    create_section_reader zlib zstd section_id view endian dwo_file =
      some (Except.ok ⟨view.readVec s.start s.len, endian⟩,
        [(data_var.address, data_var.width), (s.start, 4),
          (s.start + view.addressSize * 3, len), (s.start, s.len)]) := by
  simp [create_section_reader, sectionReaderCompressed, hs, hsym, hvar, hew,
    hfind, hflags, hlen, htag, hbuf, hew0, hbit, hlen0]

/-- C8 witness: `viewW8` (same compressed layout as `viewW 1` but every
`read_buffer` call fails) returns the raw 16 section bytes — here the
host read stub returns `[]` — rather than an error. -/
theorem c8_failed_payload_read_falls_through_witness :
    create_section_reader zlibW zstdW idW viewW8 RunTimeEndian.little false =
      some (Except.ok ⟨[], RunTimeEndian.little⟩,
        [(100, 20), (0, 4), (12, 4), (0, 16)]) :=
  c8_failed_payload_read_falls_through zlibW zstdW idW viewW8
    RunTimeEndian.little false ⟨0, 16⟩ ⟨"__elf_section_headers", 100⟩
    ⟨100, 20, some 20⟩ 20 hdrBytesW 2048 4 1 (by decide) (by decide) (by decide)
    (by decide) (by decide) (by decide) (by decide) (by decide) (by decide)
    (by decide) (by decide) (by decide)

/-- C5.  For a non-empty section resolved under its exact (or DWO) name for
which the compression block is a no-op (side table absent, no matching
header, compression bit clear, or failed payload read — any run of it that
falls through), the returned bytes are byte-for-byte the direct raw read of
`[start, start + len)`. -/
theorem c5_uncompressed_verbatim (zlib : List Nat → List Nat)
    (zstd : List Nat → Option (List Nat)) (section_id : SectionId)
    (view : BinaryView) (endian : RunTimeEndian) (dwo_file : Bool)
    (s : Section) (lg : List (Nat × Nat))
    (hs : view.sectionByName (sectionNameOf section_id dwo_file) = some s)
    (hskip : sectionReaderCompressed zlib zstd view endian s = some (none, lg))
    (hlen : s.len ≠ 0) :
    create_section_reader zlib zstd section_id view endian dwo_file =
      some (Except.ok ⟨view.readVec s.start s.len, endian⟩,
        lg ++ [(s.start, s.len)]) := by
  simp [create_section_reader, hs, hskip, hlen]

/-- C5 witness: `c5View` has an uncompressed `.debug_info` of bytes
`[1,2,3]` and no side table; the reader returns exactly the raw read. -/
theorem c5_uncompressed_verbatim_witness :
    create_section_reader zlibW zstdW idW c5View RunTimeEndian.little false =
      some (Except.ok ⟨[1, 2, 3], RunTimeEndian.little⟩, [(0, 3)]) :=
  c5_uncompressed_verbatim zlibW zstdW idW c5View RunTimeEndian.little false
    ⟨0, 3⟩ [] (by decide) (by decide) (by decide)

/-- C9.  A section resolved only via the `__`-prefix fallback is returned
as a verbatim raw copy unconditionally: no side-table lookup, no
compression detection (the read log is exactly the one section read, for
any symbol/data-variable tables) and no zero-length short-circuit (the
conclusion holds for `s.len = 0` too, still issuing the read). -/
theorem c9_prefix_fallback_verbatim (zlib : List Nat → List Nat)
    (zstd : List Nat → Option (List Nat)) (section_id : SectionId)
    (view : BinaryView) (endian : RunTimeEndian) (dwo_file : Bool) (s : Section)
    (h1 : view.sectionByName (sectionNameOf section_id dwo_file) = none)
    (hname : (sectionNameOf section_id dwo_file).length ≠ 0)
    (h2 : view.sectionByName
        ("__" ++ (sectionNameOf section_id dwo_file).drop 1) = some s) :
    create_section_reader zlib zstd section_id view endian dwo_file =
      some (Except.ok ⟨view.readVec s.start s.len, endian⟩, [(s.start, s.len)]) := by
  simp [create_section_reader, h1, h2, hname]

/-- C9 witness: `c9View` publishes a section-header side table, yet the
`__debug_info`-resolved read is a verbatim copy with a single read call and
no side-table read. -/
theorem c9_prefix_fallback_verbatim_witness :
    create_section_reader zlibW zstdW idW c9View RunTimeEndian.little false =
      some (Except.ok ⟨[4, 5], RunTimeEndian.little⟩, [(0, 2)]) :=
  c9_prefix_fallback_verbatim zlibW zstdW idW c9View RunTimeEndian.little false
    ⟨0, 2⟩ (by decide) (by decide) (by decide)

/-- C6 counterexample: a zero-length section present only under the
`__`-prefixed name.  The claim says any resolved zero-length section
short-circuits without issuing any underlying read; here the reader
returns the empty buffer but its read log contains the call `(5, 0)`. -/
theorem c6_zero_length_counterexample :
    create_section_reader zlibW zstdW idW c6View RunTimeEndian.little false =
      some (Except.ok ⟨[], RunTimeEndian.little⟩, [(5, 0)]) ∧
    ([((5 : Nat), (0 : Nat))] : List (Nat × Nat)) ≠ [] :=
  ⟨by decide, by decide⟩

/-- C6 amended.  For a zero-length section resolved under its exact (or
DWO) name, `create_section_reader` returns an empty buffer and issues no
reads beyond those already made by compression detection (read log exactly
`lg`); a zero-length section resolved via the `__`-prefix fallback also
returns an empty buffer but does issue one zero-length read call. -/
theorem c6_zero_length_amended :
    (∀ (zlib : List Nat → List Nat) (zstd : List Nat → Option (List Nat))
        (section_id : SectionId) (view : BinaryView) (endian : RunTimeEndian)
        (dwo_file : Bool) (s : Section) (lg : List (Nat × Nat)),
      view.sectionByName (sectionNameOf section_id dwo_file) = some s →
      sectionReaderCompressed zlib zstd view endian s = some (none, lg) →
      s.len = 0 →
      create_section_reader zlib zstd section_id view endian dwo_file =
        some (Except.ok ⟨[], endian⟩, lg)) ∧
    (∀ (zlib : List Nat → List Nat) (zstd : List Nat → Option (List Nat))
        (section_id : SectionId) (view : BinaryView) (endian : RunTimeEndian)
        (dwo_file : Bool) (s : Section),
      view.sectionByName (sectionNameOf section_id dwo_file) = none →
      (sectionNameOf section_id dwo_file).length ≠ 0 →
      view.sectionByName
          ("__" ++ (sectionNameOf section_id dwo_file).drop 1) = some s →
      s.len = 0 →
      view.readVec s.start 0 = [] →
      create_section_reader zlib zstd section_id view endian dwo_file =
        some (Except.ok ⟨[], endian⟩, [(s.start, 0)])) := by
  constructor
  · intro zlib zstd section_id view endian dwo_file s lg hs hskip hz
    simp [create_section_reader, hs, hskip, hz]
  · intro zlib zstd section_id view endian dwo_file s h1 hname h2 hz hr
    obtain ⟨st, sl⟩ := s
    simp only at hz
    subst hz
    simp only at hr
    simp [create_section_reader, h1, h2, hname, hr]

/-- C6 amended witness: the exact-name zero-length image `c6ViewA` (no
reads at all) and the fallback-resolved zero-length image `c6View` (one
zero-length read). -/
theorem c6_zero_length_amended_witness :
    (create_section_reader zlibW zstdW idW c6ViewA RunTimeEndian.little false =
      some (Except.ok ⟨[], RunTimeEndian.little⟩, [])) ∧
    (create_section_reader zlibW zstdW idW c6View RunTimeEndian.little false =
      some (Except.ok ⟨[], RunTimeEndian.little⟩, [(5, 0)])) :=
  ⟨c6_zero_length_amended.1 zlibW zstdW idW c6ViewA RunTimeEndian.little false
      ⟨5, 0⟩ [] (by decide) (by decide) (by decide),
    c6_zero_length_amended.2 zlibW zstdW idW c6View RunTimeEndian.little false
      ⟨5, 0⟩ (by decide) (by decide) (by decide) (by decide) (by decide)⟩

/-- C4.  Name resolution of `create_section_reader`: (1) with `dwo_file`
set and a defined DWO name, the DWO name is resolved; (2) otherwise the
canonical name is; (3) when the resolved name is present, the result is
independent of what the section map answers for any other name — in
particular the `__`-prefixed fallback is never consulted (first match
wins); (4) when the resolved name is absent, the lookup is retried with
the leading character replaced by `__`, and that lookup alone determines
the result. -/
theorem c4_name_resolution_order :
    (∀ (section_id : SectionId) (d : String),
      section_id.dwoName = some d → sectionNameOf section_id true = d) ∧
    (∀ (section_id : SectionId) (dwo_file : Bool),
      dwo_file = false ∨ section_id.dwoName = none →
      sectionNameOf section_id dwo_file = section_id.name) ∧
    (∀ (zlib : List Nat → List Nat) (zstd : List Nat → Option (List Nat))
        (section_id : SectionId) (view : BinaryView) (endian : RunTimeEndian)
        (dwo_file : Bool) (s : Section) (f : String → Option Section),
      view.sectionByName (sectionNameOf section_id dwo_file) = some s →
      f (sectionNameOf section_id dwo_file) = some s →
      create_section_reader zlib zstd section_id view endian dwo_file =
        create_section_reader zlib zstd section_id
          { view with sectionByName := f } endian dwo_file) ∧
    (∀ (zlib : List Nat → List Nat) (zstd : List Nat → Option (List Nat))
        (section_id : SectionId) (view : BinaryView) (endian : RunTimeEndian)
        (dwo_file : Bool),
      view.sectionByName (sectionNameOf section_id dwo_file) = none →
      (sectionNameOf section_id dwo_file).length ≠ 0 →
      create_section_reader zlib zstd section_id view endian dwo_file =
        match view.sectionByName
            ("__" ++ (sectionNameOf section_id dwo_file).drop 1) with
        | some s =>
          some (Except.ok ⟨view.readVec s.start s.len, endian⟩, [(s.start, s.len)])
        | none => some (Except.ok ⟨[], endian⟩, [])) := by
  refine ⟨?_, ?_, ?_, ?_⟩
  · intro section_id d h
    simp [sectionNameOf, h]
  · intro section_id dwo_file h
    rcases h with h | h
    · subst h
      simp [sectionNameOf]
    · simp [sectionNameOf, h]
  · intro zlib zstd section_id view endian dwo_file s f hs hf
    unfold create_section_reader
    dsimp only
    rw [hs, hf]
    rfl
  · intro zlib zstd section_id view endian dwo_file h1 hname
    cases hfb : view.sectionByName
        ("__" ++ (sectionNameOf section_id dwo_file).drop 1) with
    | some s => simp [create_section_reader, h1, hname, hfb]
    | none => simp [create_section_reader, h1, hname, hfb]

/-- C4 witness: the DWO name of `idDwoW` takes precedence; the canonical
name is used without `dwo_file`; `c5View` and its decoy-extended variant
`c4View2` agree on `.debug_info`, so the reader's results coincide; and on
`c9View` the absent `.debug_info` resolves through `__debug_info`. -/
theorem c4_name_resolution_order_witness :
    (sectionNameOf idDwoW true = ".debug_info.dwo") ∧
    (sectionNameOf idDwoW false = ".debug_info") ∧
    (create_section_reader zlibW zstdW idW c5View RunTimeEndian.little false =
      create_section_reader zlibW zstdW idW c4View2 RunTimeEndian.little false) ∧
    (create_section_reader zlibW zstdW idW c9View RunTimeEndian.little false =
      some (Except.ok ⟨[4, 5], RunTimeEndian.little⟩, [(0, 2)])) :=
  ⟨c4_name_resolution_order.1 idDwoW ".debug_info.dwo" rfl,
    c4_name_resolution_order.2.1 idDwoW false (Or.inl rfl),
    c4_name_resolution_order.2.2.1 zlibW zstdW idW c5View RunTimeEndian.little
      false ⟨0, 3⟩ _ (by decide) (by decide),
    c4_name_resolution_order.2.2.2 zlibW zstdW idW c9View RunTimeEndian.little
      false (by decide) (by decide)⟩

/-- Every chunk produced by `chunksOf w l` has length exactly `w` when `w`
is positive and divides `l.length`. -/
theorem chunksOf_mem_length (w : Nat) (l : List Nat) (hdvd : w ∣ l.length)
    (c : List Nat) (hc : c ∈ chunksOf w l) (hw : 0 < w) : c.length = w := by
  obtain ⟨k, hk⟩ := hdvd
  unfold chunksOf at hc
  rw [List.mem_map] at hc
  obtain ⟨i, hi, rfl⟩ := hc
  rw [List.mem_range] at hi
  have hcount : (l.length + w - 1) / w = k := by
    rw [hk]
    have h1 : w * k + w - 1 = w * k + (w - 1) := by omega
    rw [h1, Nat.mul_add_div hw, Nat.div_eq_of_lt (by omega)]
    omega
  rw [hcount] at hi
  have hle : i * w + w ≤ l.length := by
    have h2 : (i + 1) * w ≤ k * w :=
      Nat.mul_le_mul_right w (by omega)
    have h3 : (i + 1) * w = i * w + w := by ring
    have h4 : k * w = w * k := by ring
    omega
  simp only [List.length_take, List.length_drop]
  omega

/-- `findFirst` does not panic when the predicate panics on no element. -/
theorem findFirst_ne_none (p : List Nat → Option Bool) (L : List (List Nat))
    (h : ∀ c ∈ L, p c ≠ none) : findFirst p L ≠ none := by
  induction L with
  | nil => simp [findFirst]
  | cons c cs ih =>
    have hc := h c (List.mem_cons_self c cs)
    cases hp : p c with
    | none => exact absurd hp hc
    | some b =>
      cases b with
      | true => simp [findFirst, hp]
      | false =>
        simp only [findFirst, hp]
        exact ih (fun c' hc' => h c' (List.mem_cons_of_mem _ hc'))

/-- The header-search predicate does not panic on a record long enough for
the indexed byte range (20 bytes for 4-byte address size, 32 otherwise). -/
theorem sectionHeaderMatches_ne_none (address_size : Nat)
    (endian : RunTimeEndian) (sectionStart : Nat) (c : List Nat)
    (h : (if address_size = 4 then 20 else 32) ≤ c.length) :
    sectionHeaderMatches address_size endian sectionStart c ≠ none := by
  by_cases ha : address_size = 4
  · rw [if_pos ha] at h
    simp [sectionHeaderMatches, ha, slice?, h]
  · rw [if_neg ha] at h
    simp [sectionHeaderMatches, ha, slice?, h]

/-- C10.  The compression-detection loop indexes header records at fixed
byte ranges without length checks.  It is panic-free whenever the side
table's element width is at least 20 bytes (4-byte address size) or 32
bytes (otherwise) and divides the table's total byte width; without the
divisibility the trailing short chunk can make it panic, as the concrete
second conjunct shows (30 bytes split in 20-byte chunks, 4-byte address
size, no matching record). -/
theorem c10_side_table_loop_panic_freedom :
    (∀ (address_size : Nat) (endian : RunTimeEndian)
        (sectionStart elementWidth : Nat) (data : List Nat),
      (if address_size = 4 then 20 ≤ elementWidth else 32 ≤ elementWidth) →
      elementWidth ∣ data.length →
      findFirst (sectionHeaderMatches address_size endian sectionStart)
        (chunksOf elementWidth data) ≠ none) ∧
    findFirst (sectionHeaderMatches 4 RunTimeEndian.little 999)
      (chunksOf 20 (List.replicate 30 0)) = none := by
  constructor
  · intro a e st w data hw hdvd
    have hw0 : 0 < w := by
      by_cases ha : a = 4
      · rw [if_pos ha] at hw; omega
      · rw [if_neg ha] at hw; omega
    apply findFirst_ne_none
    intro c hc
    have hlen := chunksOf_mem_length w data hdvd c hc hw0
    apply sectionHeaderMatches_ne_none
    rw [hlen]
    by_cases ha : a = 4
    · rw [if_pos ha]
      rw [if_pos ha] at hw
      exact hw
    · rw [if_neg ha]
      rw [if_neg ha] at hw
      exact hw
  · decide

/-- C10 witness: a well-formed side table — two 20-byte records, 4-byte
address size — is searched without panic. -/
theorem c10_side_table_loop_panic_freedom_witness :
    findFirst (sectionHeaderMatches 4 RunTimeEndian.little 0)
      (chunksOf 20 (List.replicate 40 1)) ≠ none :=
  c10_side_table_loop_panic_freedom.1 4 RunTimeEndian.little 0 20
    (List.replicate 40 1) (by decide) (by decide)

end Dwarf
